import Mathlib

/-!
Verification of the trust-gating execution engine of the `blinks` repository
(src/src/ui/ActionLayout.tsx and the observer entry point).

The TypeScript source is shallowly embedded: each Lean definition mirrors one
source definition, keeping the source's names.  Definitions imported by the
source from modules that are not part of the available sources
(`../api`, `../shared`) are modelled from the specification and are marked
`Modelled from the spec:` in their doc comments.
-/

namespace Blinks

/-- Trust classification levels (`ExtendedActionState` from `../api`):
`trusted`, `unknown`, `malicious`. -/
inductive ExtendedActionState
| trusted
| unknown
| malicious
deriving DecidableEq, Repr

/-- Modelled from the spec: `SecurityLevel` from `../shared` (module not among
the sources).  The closed set of admission thresholds: `onlyTrusted` is the
string literal `'only-trusted'` seen in the source (strictest, admits only
`trusted`), `nonMalicious` the middle policy (admits `trusted` and `unknown`),
`all` the permissive policy (admits everything, never blocks). -/
inductive SecurityLevel
| onlyTrusted
| nonMalicious
| all
deriving DecidableEq, Repr

/-- Modelled from the spec: `checkSecurity(level, policy)` from `../shared`
(module not among the sources).  "the strictest policy admits only `trusted`;
a permissive policy admits everything; a middle policy admits `trusted` and
`unknown` but not `malicious`"; total over all pairs. -/
def checkSecurity : ExtendedActionState → SecurityLevel → Bool
| _, .all => true
| .trusted, _ => true
| .unknown, .nonMalicious => true
| .unknown, .onlyTrusted => false
| .malicious, _ => false

/-- Classification domains (`type Source` in ActionLayout.tsx). -/
inductive Source
| websites
| interstitials
| actions
deriving DecidableEq, Repr

/-- `NormalizedSecurityLevel = Record<Source, SecurityLevel>`
(ActionLayout.tsx). -/
structure NormalizedSecurityLevel where
  websites : SecurityLevel
  interstitials : SecurityLevel
  actions : SecurityLevel
deriving DecidableEq, Repr

/-- Indexing `normalizedSecurityLevel[source]`. -/
def NormalizedSecurityLevel.get (l : NormalizedSecurityLevel) : Source → SecurityLevel
| .websites => l.websites
| .interstitials => l.interstitials
| .actions => l.actions

/-- The origin half of `ActionStateWithOrigin`: present exactly when the link
has an enclosing origin, carrying the origin's classification and its domain
(`originType`). -/
structure OriginInfo where
  origin : ExtendedActionState
  originType : Source
deriving DecidableEq, Repr

/-- `ActionStateWithOrigin` (ActionLayout.tsx): the action's classification
plus, optionally, the enclosing origin's classification and domain.  The
TypeScript union with an absent `origin` field is an `Option` here. -/
structure ActionStateWithOrigin where
  action : ExtendedActionState
  originInfo : Option OriginInfo
deriving DecidableEq, Repr

/-- `state.origin` as the TypeScript code reads it: the origin classification
when present, `undefined` (here `none`) otherwise. -/
def ActionStateWithOrigin.origin (s : ActionStateWithOrigin) : Option ExtendedActionState :=
  s.originInfo.map (fun o => o.origin)

/-- `checkSecurityFromActionState(state, normalizedSecurityLevel)`
(ActionLayout.tsx lines 376-384).  The body is

  return checkSecurity(state.action, l.actions) && state.origin
    ? checkSecurity(state.origin, l[state.originType]) : true;

JavaScript operator precedence groups this as
`(checkSecurity(state.action, l.actions) && state.origin) ? ... : true`:
the origin check runs only when the action check passed AND an origin is
present; in every other case — including when the action check FAILED —
the function returns `true`. -/
def checkSecurityFromActionState (state : ActionStateWithOrigin)
    (normalizedSecurityLevel : NormalizedSecurityLevel) : Bool :=
  match state.originInfo with
  | some o =>
    if checkSecurity state.action normalizedSecurityLevel.actions then
      checkSecurity o.origin (normalizedSecurityLevel.get o.originType)
    else
      true
  | none => true

/-- Modelled from the spec: the admission decision of `evaluate`:
"admitted = admits(actionLevel, policy.actions) AND (originLevel absent OR
admits(originLevel, policy[originDomain]))".  Stated separately so it can be
compared with the source's `checkSecurityFromActionState`. -/
def admittedSpec (state : ActionStateWithOrigin)
    (normalizedSecurityLevel : NormalizedSecurityLevel) : Bool :=
  checkSecurity state.action normalizedSecurityLevel.actions &&
    (match state.originInfo with
     | some o => checkSecurity o.origin (normalizedSecurityLevel.get o.originType)
     | none => true)

/-- Modelled from the spec: the restrictiveness order used for merging,
"malicious > unknown > trusted". -/
def restrictiveness : ExtendedActionState → Nat
| .trusted => 0
| .unknown => 1
| .malicious => 2

/-- Modelled from the spec: `mergeActionStates` from `../api` (module not
among the sources): merge a non-empty family of classifications,
most restrictive wins. -/
def mergeActionStates (a : ExtendedActionState) (rest : List ExtendedActionState) :
    ExtendedActionState :=
  rest.foldl (fun acc s => if restrictiveness acc < restrictiveness s then s else acc) a

/-- `overallState` in `ActionContainer`:
`mergeActionStates(...[actionState.action, actionState.origin].filter(Boolean))`. -/
def overallState (s : ActionStateWithOrigin) : ExtendedActionState :=
  mergeActionStates s.action
    (match s.originInfo with
     | some o => [o.origin]
     | none => [])

/-- Claim C10: `checkSecurityFromActionState` returns `false` only when the
action-level check passes, an origin is present, and the origin-level check
fails; consequently it returns `true` whenever there is no origin or whenever
the action-level check fails — in particular a `malicious` action under an
`only-trusted` policy with no enclosing origin is reported as passing. -/
theorem c10_checkSecurity_false_characterization
    (st : ActionStateWithOrigin) (l : NormalizedSecurityLevel) :
    (checkSecurityFromActionState st l = false ↔
      checkSecurity st.action l.actions = true ∧
        ∃ o, st.originInfo = some o ∧ checkSecurity o.origin (l.get o.originType) = false) ∧
    (st.originInfo = none → checkSecurityFromActionState st l = true) ∧
    (checkSecurity st.action l.actions = false → checkSecurityFromActionState st l = true) ∧
    checkSecurityFromActionState ⟨.malicious, none⟩ ⟨.onlyTrusted, .onlyTrusted, .onlyTrusted⟩
      = true := by
  refine ⟨?_, ?_, ?_, by decide⟩
  · cases h : st.originInfo with
    | none => simp [checkSecurityFromActionState, h]
    | some o =>
      by_cases ha : checkSecurity st.action l.actions <;>
        simp [checkSecurityFromActionState, h, ha]
  · intro h
    simp [checkSecurityFromActionState, h]
  · intro h
    cases ho : st.originInfo <;> simp [checkSecurityFromActionState, ho, h]

/-- Witness for C10 at a concrete input: a state with no origin is admitted. -/
theorem c10_checkSecurity_false_characterization_witness :
    checkSecurityFromActionState ⟨.unknown, none⟩ ⟨.onlyTrusted, .onlyTrusted, .onlyTrusted⟩
      = true :=
  (c10_checkSecurity_false_characterization ⟨.unknown, none⟩
    ⟨.onlyTrusted, .onlyTrusted, .onlyTrusted⟩).2.1 rfl

/-- Claim C1 (failing-input evaluation): under the uniform `only-trusted`
policy, a `malicious` action with no enclosing origin fails the action-level
check, yet `checkSecurityFromActionState` reports admission `true`, while the
spec's `admitted` conjunction reports `false`.  The claim's "for every input
where the action-level check fails, admission is false regardless of the
origin" is violated by the source. -/
theorem c1_admission_not_conjunction :
    checkSecurity ExtendedActionState.malicious SecurityLevel.onlyTrusted = false ∧
    checkSecurityFromActionState ⟨.malicious, none⟩
      ⟨.onlyTrusted, .onlyTrusted, .onlyTrusted⟩ = true ∧
    admittedSpec ⟨.malicious, none⟩ ⟨.onlyTrusted, .onlyTrusted, .onlyTrusted⟩ = false := by
  decide

/-- `type ExecutionStatus = 'blocked' | 'idle' | 'executing' | 'success' | 'error'`. -/
inductive ExecutionStatus
| blocked
| idle
| executing
| success
| error
deriving DecidableEq, Repr

/-- An action component's optional single parameter (`name` + `label`). -/
structure ActionParameter where
  name : String
  label : String
deriving DecidableEq, Repr

/-- `ActionComponent` from `../api`: one invocable unit of an action.  The
`id` field stands for the component's identity (the TypeScript code compares
components with reference equality `===`); `post`'s behaviour is supplied by
the protocol environment at execution time. -/
structure ActionComponent where
  id : Nat
  label : String
  parameter : Option ActionParameter := none
deriving DecidableEq, Repr

/-- `interface ExecutionState` (ActionLayout.tsx).  TypeScript's optional /
nullable fields are `Option`s defaulting to `none`, matching a fresh object
literal that omits them. -/
structure ExecutionState where
  status : ExecutionStatus
  executingAction : Option ActionComponent := none
  errorMessage : Option String := none
  successMessage : Option String := none
deriving DecidableEq, Repr

/-- `type ActionValue`: the reducer's event union, tagged by `ExecutionType`. -/
inductive ActionValue
| INITIATE (executingAction : ActionComponent)
| FINISH (successMessage : Option String)
| FAIL (errorMessage : String)
| RESET
| UNBLOCK
| BLOCK
deriving DecidableEq, Repr

/-- `executionReducer(state, action)` (ActionLayout.tsx lines 282-316).
`INITIATE`, `RESET`, `BLOCK` and `UNBLOCK` return fresh objects (every
omitted field is absent); `FINISH` and `FAIL` spread the previous state. -/
def executionReducer (state : ExecutionState) (action : ActionValue) : ExecutionState :=
  match action with
  | .INITIATE c => { status := .executing, executingAction := some c }
  | .FINISH m =>
    { state with status := .success, successMessage := m, errorMessage := none }
  | .FAIL m =>
    { state with status := .error, errorMessage := some m, successMessage := none }
  | .RESET => { status := .idle }
  | .UNBLOCK => { status := .idle }
  | .BLOCK => { status := .blocked }

/-- The initial argument of `useReducer` in `ActionContainer`
(ActionLayout.tsx lines 441-446):
`status: overallState !== 'malicious' && isPassingSecurityCheck ? 'idle' : 'blocked'`. -/
def initialExecutionState (actionState : ActionStateWithOrigin)
    (normalizedSecurityLevel : NormalizedSecurityLevel) : ExecutionState :=
  { status :=
      if overallState actionState != ExtendedActionState.malicious &&
          checkSecurityFromActionState actionState normalizedSecurityLevel
      then .idle else .blocked }

/-- The condition under which the override button ("Ignore warning & proceed")
is rendered: the `disclaimer` memo (ActionLayout.tsx lines 565-595) shows the
error snackbar when `overallState === 'malicious' && status === 'blocked'`,
and the button inside it only when `isPassingSecurityCheck`. -/
def disclaimerOverrideOffered (actionState : ActionStateWithOrigin)
    (normalizedSecurityLevel : NormalizedSecurityLevel) (x : ExecutionState) : Bool :=
  (overallState actionState == ExtendedActionState.malicious &&
      x.status == ExecutionStatus.blocked) &&
    checkSecurityFromActionState actionState normalizedSecurityLevel

/-- Claim C3: the freshly mounted controller starts `blocked` exactly when the
merged overall level is `malicious` or the admission check reports `false`,
and `idle` otherwise. -/
theorem c3_initial_status (actionState : ActionStateWithOrigin)
    (l : NormalizedSecurityLevel) :
    (initialExecutionState actionState l).status =
      if overallState actionState = ExtendedActionState.malicious ∨
          checkSecurityFromActionState actionState l = false
      then ExecutionStatus.blocked else ExecutionStatus.idle := by
  unfold initialExecutionState
  by_cases h : overallState actionState = ExtendedActionState.malicious
  · simp [h]
  · by_cases h2 : checkSecurityFromActionState actionState l = true <;> simp [h, h2]

/-- Claim C2 (failing-input evaluation): under the uniform `only-trusted`
policy, a `malicious` action with no enclosing origin is initially `blocked`
and the policy itself forbids its level (`checkSecurity` fails on the overall
level), yet the disclaimer offers the override button — because the admission
check passes spuriously — and invoking `UNBLOCK` moves the controller to
`idle`.  The claim requires the override to be unavailable here. -/
theorem c2_override_offered_despite_policy :
    (initialExecutionState ⟨.malicious, none⟩
        ⟨.onlyTrusted, .onlyTrusted, .onlyTrusted⟩).status = ExecutionStatus.blocked ∧
    checkSecurity (overallState ⟨.malicious, none⟩) SecurityLevel.onlyTrusted = false ∧
    disclaimerOverrideOffered ⟨.malicious, none⟩ ⟨.onlyTrusted, .onlyTrusted, .onlyTrusted⟩
      (initialExecutionState ⟨.malicious, none⟩
        ⟨.onlyTrusted, .onlyTrusted, .onlyTrusted⟩) = true ∧
    (executionReducer
      (initialExecutionState ⟨.malicious, none⟩ ⟨.onlyTrusted, .onlyTrusted, .onlyTrusted⟩)
      ActionValue.UNBLOCK).status = ExecutionStatus.idle := by
  decide

/-- `component.post(account)`'s result: a transaction payload plus the display
message later used as `successMessage` (`tx.message`). -/
structure PostResult where
  transaction : String
  message : Option String
deriving DecidableEq, Repr

/-- The value `signTransaction` returns when it does not throw: `falsy` for a
null/undefined result, `signError` for a result recognized by
`isSignTransactionError`, and `ok` for a usable signature. -/
inductive SignResult
| falsy
| signError (message : String)
| ok (signature : String)
deriving DecidableEq, Repr

/-- Outcome of one awaited protocol step: a value, or a thrown error whose
`.message` may be absent (`(e as Error).message ?? 'Unknown error'`). -/
inductive StepOutcome (α : Type)
| ok (value : α)
| thrown (message : Option String)
deriving DecidableEq, Repr

/-- The external `TransactionAdapter` behaviour for one `execute` run:
what `connect`, `component.post`, `signTransaction` and `confirmTransaction`
do when (and if) they are awaited. -/
structure ProtocolEnv where
  connect : StepOutcome (Option String)
  post : StepOutcome PostResult
  sign : StepOutcome SignResult
  confirm : StepOutcome Unit
deriving DecidableEq, Repr

/-- The `try { ... } catch (e) { ... }` body of `execute` (ActionLayout.tsx
lines 515-542), applied to the state reached after `INITIATE` was
dispatched.  Steps are awaited in source order; a throw at any step
dispatches `FAIL` with the error's message or the `'Unknown error'`
fallback; a null account or a falsy/error sign result dispatches `RESET`;
full success dispatches `FINISH` with `tx.message`. -/
def executeProtocol (env : ProtocolEnv) (state : ExecutionState) : ExecutionState :=
  match env.connect with
  | .thrown m => executionReducer state (.FAIL (m.getD "Unknown error"))
  | .ok none => executionReducer state .RESET
  | .ok (some _account) =>
    match env.post with
    | .thrown m => executionReducer state (.FAIL (m.getD "Unknown error"))
    | .ok tx =>
      match env.sign with
      | .thrown m => executionReducer state (.FAIL (m.getD "Unknown error"))
      | .ok .falsy => executionReducer state .RESET
      | .ok (.signError _) => executionReducer state .RESET
      | .ok (.ok _signature) =>
        match env.confirm with
        | .thrown m => executionReducer state (.FAIL (m.getD "Unknown error"))
        | .ok _ => executionReducer state (.FINISH tx.message)

/-- What one call of `execute` produced: the final execution state, the
stored `actionState` after the call (changed only by `setActionState` on the
block path), and whether the protocol steps were reached at all. -/
structure ExecuteResult where
  finalState : ExecutionState
  storedActionState : ActionStateWithOrigin
  protocolRan : Bool
deriving DecidableEq, Repr

/-- `execute(component, params)` (ActionLayout.tsx lines 481-543).
`storedActionState` is the `actionState` React state the closure read;
`newActionState` is the value `getOverallActionState` freshly recomputes from
the registry (external, hence a parameter).  The guard is
`(newActionState.action !== actionState.action ||
  newActionState.origin !== actionState.origin) && !newIsPassingSecurityCheck`;
on it the new classification is persisted, `BLOCK` is dispatched and the
function returns before any protocol step; otherwise `INITIATE` is dispatched
with exactly the triggered component and the protocol body runs.  (The
`component.setValue` call mutates the component's parameter value and affects
none of the state machine; it is not modelled.) -/
def execute (storedActionState newActionState : ActionStateWithOrigin)
    (normalizedSecurityLevel : NormalizedSecurityLevel) (component : ActionComponent)
    (env : ProtocolEnv) (state : ExecutionState) : ExecuteResult :=
  let newIsPassingSecurityCheck :=
    checkSecurityFromActionState newActionState normalizedSecurityLevel
  if (newActionState.action != storedActionState.action ||
      newActionState.origin != storedActionState.origin) && !newIsPassingSecurityCheck
  then
    { finalState := executionReducer state .BLOCK
      storedActionState := newActionState
      protocolRan := false }
  else
    { finalState := executeProtocol env (executionReducer state (.INITIATE component))
      storedActionState := storedActionState
      protocolRan := true }

/-- Claim C4: when the freshly recomputed classification differs from the
stored one and the fresh admission check fails, `execute` transitions to
`blocked`, persists the new classification and runs no protocol step; in
every other case it dispatches `INITIATE`, i.e. moves to `executing` with
`executingAction` set to exactly the triggered component, and runs the
protocol from that state. -/
theorem c4_execute_gate (stored fresh : ActionStateWithOrigin)
    (l : NormalizedSecurityLevel) (c : ActionComponent) (env : ProtocolEnv)
    (x : ExecutionState) :
    if ((fresh.action != stored.action || fresh.origin != stored.origin) &&
        !checkSecurityFromActionState fresh l) = true
    then execute stored fresh l c env x =
      { finalState := { status := .blocked }
        storedActionState := fresh
        protocolRan := false }
    else execute stored fresh l c env x =
      { finalState :=
          executeProtocol env { status := .executing, executingAction := some c }
        storedActionState := stored
        protocolRan := true } := by
  by_cases h : ((fresh.action != stored.action || fresh.origin != stored.origin) &&
      !checkSecurityFromActionState fresh l) = true
  · simp [h, execute, executionReducer]
  · simp [h, execute, executionReducer]

/-- Claim C5: a null account from `connect`, or a falsy or error result from
`signTransaction` returned without throwing, sends the controller back to
`idle` with `executingAction` cleared and neither an error nor a success
message recorded. -/
theorem c5_silent_cancel (env : ProtocolEnv) (x : ExecutionState) (acct : String)
    (tx : PostResult) (m : String) :
    (env.connect = .ok none → executeProtocol env x = { status := .idle }) ∧
    (env.connect = .ok (some acct) → env.post = .ok tx → env.sign = .ok .falsy →
      executeProtocol env x = { status := .idle }) ∧
    (env.connect = .ok (some acct) → env.post = .ok tx → env.sign = .ok (.signError m) →
      executeProtocol env x = { status := .idle }) := by
  obtain ⟨hc, hp, hs, hf⟩ := env
  refine ⟨?_, ?_, ?_⟩ <;> intros <;> simp_all [executeProtocol, executionReducer]

/-- Witness for C5 at a concrete input: `connect` resolving to `null` yields
the fresh `idle` state. -/
theorem c5_silent_cancel_witness :
    executeProtocol ⟨.ok none, .ok ⟨"tx", none⟩, .ok .falsy, .ok ()⟩
      { status := .executing, executingAction := some ⟨0, "Swap", none⟩ } =
      { status := .idle } :=
  (c5_silent_cancel ⟨.ok none, .ok ⟨"tx", none⟩, .ok .falsy, .ok ()⟩
    { status := .executing, executingAction := some ⟨0, "Swap", none⟩ }
    "acct" ⟨"tx", none⟩ "err").1 rfl

/-- Claim C6: a throw at any protocol step moves the controller to `error`
with `errorMessage` equal to the thrown error's message — or the
`'Unknown error'` fallback when that message is absent — and with
`successMessage` cleared. -/
theorem c6_throw_reaches_error (env : ProtocolEnv) (x : ExecutionState)
    (acct : String) (tx : PostResult) (sig : String) (m : Option String) :
    (env.connect = .thrown m →
      executeProtocol env x =
        { x with status := .error, errorMessage := some (m.getD "Unknown error"),
                 successMessage := none }) ∧
    (env.connect = .ok (some acct) → env.post = .thrown m →
      executeProtocol env x =
        { x with status := .error, errorMessage := some (m.getD "Unknown error"),
                 successMessage := none }) ∧
    (env.connect = .ok (some acct) → env.post = .ok tx → env.sign = .thrown m →
      executeProtocol env x =
        { x with status := .error, errorMessage := some (m.getD "Unknown error"),
                 successMessage := none }) ∧
    (env.connect = .ok (some acct) → env.post = .ok tx → env.sign = .ok (.ok sig) →
      env.confirm = .thrown m →
      executeProtocol env x =
        { x with status := .error, errorMessage := some (m.getD "Unknown error"),
                 successMessage := none }) := by
  obtain ⟨hc, hp, hs, hf⟩ := env
  refine ⟨?_, ?_, ?_, ?_⟩ <;> intros <;> simp_all [executeProtocol, executionReducer]

/-- Witness for C6 at a concrete input: `signTransaction` throwing
`"insufficient funds"` yields `error` with exactly that `errorMessage`. -/
theorem c6_throw_reaches_error_witness :
    executeProtocol
      ⟨.ok (some "acct"), .ok ⟨"tx", some "Swap complete"⟩,
        .thrown (some "insufficient funds"), .ok ()⟩
      { status := .executing, executingAction := some ⟨0, "Swap", none⟩ } =
      { status := .error, executingAction := some ⟨0, "Swap", none⟩,
        errorMessage := some "insufficient funds", successMessage := none } :=
  (c6_throw_reaches_error
    ⟨.ok (some "acct"), .ok ⟨"tx", some "Swap complete"⟩,
      .thrown (some "insufficient funds"), .ok ()⟩
    { status := .executing, executingAction := some ⟨0, "Swap", none⟩ }
    "acct" ⟨"tx", some "Swap complete"⟩ "sig" (some "insufficient funds")).2.2.1
    rfl rfl rfl

/-- Claim C7: when connect yields an account, post yields a payload, sign
yields a usable signature and confirm returns, the controller reaches
`success` with `successMessage` equal to the payload's message and
`errorMessage` cleared to `null`. -/
theorem c7_full_success (env : ProtocolEnv) (x : ExecutionState)
    (acct : String) (tx : PostResult) (sig : String) :
    env.connect = .ok (some acct) → env.post = .ok tx → env.sign = .ok (.ok sig) →
    env.confirm = .ok () →
    executeProtocol env x =
      { x with status := .success, successMessage := tx.message,
               errorMessage := none } := by
  obtain ⟨hc, hp, hs, hf⟩ := env
  intros
  simp_all [executeProtocol, executionReducer]

/-- Witness for C7 at a concrete input: all steps succeed with message
`"Swap complete"` and the controller reaches `success` carrying it. -/
theorem c7_full_success_witness :
    executeProtocol
      ⟨.ok (some "acct"), .ok ⟨"tx", some "Swap complete"⟩, .ok (.ok "sig"), .ok ()⟩
      { status := .executing, executingAction := some ⟨0, "Swap", none⟩ } =
      { status := .success, executingAction := some ⟨0, "Swap", none⟩,
        errorMessage := none, successMessage := some "Swap complete" } :=
  c7_full_success
    ⟨.ok (some "acct"), .ok ⟨"tx", some "Swap complete"⟩, .ok (.ok "sig"), .ok ()⟩
    { status := .executing, executingAction := some ⟨0, "Swap", none⟩ }
    "acct" ⟨"tx", some "Swap complete"⟩ "sig" rfl rfl rfl rfl

/-- `const SOFT_LIMIT_BUTTONS = 10` (ActionLayout.tsx line 386). -/
def SOFT_LIMIT_BUTTONS : Nat := 10

/-- `const SOFT_LIMIT_INPUTS = 3` (ActionLayout.tsx line 387). -/
def SOFT_LIMIT_INPUTS : Nat := 3

/-- The second `.filter` of the `buttons` / `inputs` memos:
`executionState.executingAction ? executionState.executingAction === it : true`. -/
def componentFilter (executingAction : Option ActionComponent)
    (it : ActionComponent) : Bool :=
  match executingAction with
  | some e => e == it
  | none => true

/-- The `buttons` memo (ActionLayout.tsx lines 456-467):
`action.actions.filter(it => !it.parameter).filter(...).toSpliced(SOFT_LIMIT_BUTTONS)`.
`toSpliced(n)` with no further arguments keeps only the first `n` elements. -/
def buttons (actions : List ActionComponent) (executionState : ExecutionState) :
    List ActionComponent :=
  ((actions.filter (fun it => !it.parameter.isSome)).filter
      (componentFilter executionState.executingAction)).take SOFT_LIMIT_BUTTONS

/-- The `inputs` memo (ActionLayout.tsx lines 468-479):
`action.actions.filter(it => it.parameter).filter(...).toSpliced(SOFT_LIMIT_INPUTS)`. -/
def inputs (actions : List ActionComponent) (executionState : ExecutionState) :
    List ActionComponent :=
  ((actions.filter (fun it => it.parameter.isSome)).filter
      (componentFilter executionState.executingAction)).take SOFT_LIMIT_INPUTS

/-- The button variant rendered for a component (`'default' | 'success' | 'error'`). -/
inductive ButtonVariant
| default
| success
| error
deriving DecidableEq, Repr

/-- `buttonVariantMap` (ActionLayout.tsx lines 318-327). -/
def buttonVariantMap : ExecutionStatus → ButtonVariant
| .blocked => .default
| .idle => .default
| .executing => .default
| .success => .success
| .error => .error

/-- `buttonLabelMap` (ActionLayout.tsx lines 329-335). -/
def buttonLabelMap : ExecutionStatus → Option String
| .blocked => none
| .idle => none
| .executing => some "Executing"
| .success => some "Completed"
| .error => some "Failed"

/-- The data of `ButtonProps` relevant to the state machine (the `onClick`
closure is behaviour, covered by `execute`). -/
structure ButtonViewModel where
  text : String
  loading : Bool
  disabled : Bool
  variant : ButtonVariant
deriving DecidableEq, Repr

/-- `asButtonProps(it)` (ActionLayout.tsx lines 545-553); `actionDisabled` is
`action.disabled`. -/
def asButtonProps (actionDisabled : Bool) (executionState : ExecutionState)
    (it : ActionComponent) : ButtonViewModel :=
  { text := (buttonLabelMap executionState.status).getD it.label
    loading := executionState.status == ExecutionStatus.executing &&
      executionState.executingAction == some it
    disabled := actionDisabled || executionState.status != ExecutionStatus.idle
    variant := buttonVariantMap executionState.status }

/-- Every element of a truncated self-filtered list is the filtered-for
element. -/
theorem mem_take_filter_beq {α : Type} [DecidableEq α] (a : α) (l : List α)
    (n : Nat) (y : α) (hy : y ∈ (l.filter (fun it => a == it)).take n) : y = a := by
  have hy2 := List.take_subset n _ hy
  have := (List.mem_filter.mp hy2).2
  simp only [beq_iff_eq] at this
  exact this.symm

/-- Claim C8: at most one component is executing at a time: `executingAction`
holds at most one component; a component's loading flag is `true` only in
status `executing` and only for the component equal to `executingAction`; and
while some component is executing, every rendered button and input is that
component. -/
theorem c8_single_executing (actionDisabled : Bool) (actions : List ActionComponent)
    (x : ExecutionState) (it a b : ActionComponent) :
    (x.executingAction = some a → x.executingAction = some b → a = b) ∧
    ((asButtonProps actionDisabled x it).loading = true →
      x.status = ExecutionStatus.executing ∧ x.executingAction = some it) ∧
    (∀ y ∈ buttons actions { x with executingAction := some a }, y = a) ∧
    (∀ y ∈ inputs actions { x with executingAction := some a }, y = a) := by
  refine ⟨?_, ?_, ?_, ?_⟩
  · intro h1 h2
    rw [h1] at h2
    exact (Option.some.injEq a b).mp h2
  · intro h
    simp only [asButtonProps, Bool.and_eq_true, beq_iff_eq] at h
    exact h
  · intro y hy
    simp only [buttons, componentFilter] at hy
    exact mem_take_filter_beq a _ _ y hy
  · intro y hy
    simp only [inputs, componentFilter] at hy
    exact mem_take_filter_beq a _ _ y hy

/-- Witness for C8 at concrete inputs: with component 0 executing, its loading
flag implies the executing status, and the sole rendered button is that
component. -/
theorem c8_single_executing_witness :
    (ExecutionStatus.executing = ExecutionStatus.executing ∧
      (some (ActionComponent.mk 0 "Swap" none) = some (ActionComponent.mk 0 "Swap" none))) ∧
    ActionComponent.mk 0 "Swap" none = ActionComponent.mk 0 "Swap" none :=
  ⟨(c8_single_executing false [⟨0, "Swap", none⟩]
      { status := .executing, executingAction := some ⟨0, "Swap", none⟩ }
      ⟨0, "Swap", none⟩ ⟨0, "Swap", none⟩ ⟨0, "Swap", none⟩).2.1 rfl,
    (c8_single_executing false [⟨0, "Swap", none⟩]
      { status := .executing, executingAction := some ⟨0, "Swap", none⟩ }
      ⟨0, "Swap", none⟩ ⟨0, "Swap", none⟩ ⟨0, "Swap", none⟩).2.2.1
      ⟨0, "Swap", none⟩ (by decide)⟩

/-- A filter by the constant `true` keeps the list. -/
theorem filter_const_true {α : Type} (l : List α) :
    l.filter (fun _ => true) = l := by
  induction l with
  | nil => rfl
  | cons x xs ih => simp [List.filter, ih]

/-- With no executing component, the second rendering filter accepts
everything. -/
theorem componentFilter_none : componentFilter none = fun _ => true := rfl

/-- Claim C9: with no component executing, the rendered parameterless
components are the first at most `SOFT_LIMIT_BUTTONS` (10) parameterless
components of the action's ordered sequence, and the rendered single-parameter
components are the first at most `SOFT_LIMIT_INPUTS` (3) such components, in
order; the functions are total, so components beyond the caps are silently
omitted, never an error. -/
theorem c9_soft_caps (actions : List ActionComponent) (x : ExecutionState) :
    buttons actions { x with executingAction := none } =
      (actions.filter (fun it => !it.parameter.isSome)).take SOFT_LIMIT_BUTTONS ∧
    inputs actions { x with executingAction := none } =
      (actions.filter (fun it => it.parameter.isSome)).take SOFT_LIMIT_INPUTS := by
  constructor
  · simp only [buttons, componentFilter_none, filter_const_true]
  · simp only [inputs, componentFilter_none, filter_const_true]

end Blinks
